import Mathlib

/-!
Verification of the system-backup launcher (src/main.rs) against its
specification.  The Rust program is shallowly embedded below: the layered
configuration resolution, the exclude-set union, the walker post-filter,
the per-file dispatch loop, the destination-string construction, the
log-level resolution and the exit-status handling are all translated
directly from the source.  External crates (globset, the ignore walker
internals, tokio) are abstracted: a compiled glob set is an opaque
matching function, and the policy-driven traversal is an arbitrary tree
of entries.
-/

namespace SystemBackup

/-! ## Data model: ignore settings (src/main.rs lines 54-86) -/

/-- Mirror of the Rust struct IgnoreSettings: seven optional toggles,
each possibly unset at a given layer. -/
structure IgnoreSettings where
  hidden : Option Bool
  parents : Option Bool
  ignore : Option Bool
  git_global : Option Bool
  git_ignore : Option Bool
  git_exclude : Option Bool
  same_file_system : Option Bool
deriving DecidableEq, Repr

/-- Mirror of impl Default for IgnoreSettings: every toggle unset. -/
def IgnoreSettings.defaultSettings : IgnoreSettings :=
  { hidden := none, parents := none, ignore := none, git_ignore := none
  , git_global := none, git_exclude := none, same_file_system := none }

/-- One fully resolved ignore policy: the seven booleans handed to the
WalkBuilder (src/main.rs lines 320-327). -/
structure ResolvedIgnorePolicy where
  hidden : Bool
  parents : Bool
  ignore : Bool
  git_global : Bool
  git_ignore : Bool
  git_exclude : Bool
  same_file_system : Bool
deriving DecidableEq, Repr

/-- The three-tier fallback used for each toggle in src/main.rs lines
264-318: the sync-entry value if set, else the general-settings value if
set, else the built-in default true. -/
def resolveToggle (syncVal genVal : Option Bool) : Bool :=
  match syncVal with
  | some b => b
  | none =>
    match genVal with
    | some b => b
    | none => true

/-- The per-entry resolution of all seven toggles, mirroring the seven
match blocks of src/main.rs lines 264-318. -/
def resolvePolicy (sync gen : IgnoreSettings) : ResolvedIgnorePolicy :=
  { hidden := resolveToggle sync.hidden gen.hidden
  , parents := resolveToggle sync.parents gen.parents
  , ignore := resolveToggle sync.ignore gen.ignore
  , git_ignore := resolveToggle sync.git_ignore gen.git_ignore
  , git_global := resolveToggle sync.git_global gen.git_global
  , git_exclude := resolveToggle sync.git_exclude gen.git_exclude
  , same_file_system := resolveToggle sync.same_file_system gen.same_file_system }

/-! ## Exclude-set union (src/main.rs lines 247-253) -/

/-- Inserting a list of patterns into a hash set, one loop of
src/main.rs lines 248-253; HashSet semantics are modelled by Finset. -/
def insertAll (init : Finset String) (l : List String) : Finset String :=
  l.foldl (fun s e => insert e s) init

/-- The effective exclude set of one sync entry: the entry patterns are
inserted first, then the general patterns, as in src/main.rs lines
247-253. -/
def resolveExcludes (syncEx genEx : List String) : Finset String :=
  insertAll (insertAll (∅ : Finset String) syncEx) genEx

lemma resolveToggle_eq_getD (s g : Option Bool) :
    resolveToggle s g = s.getD (g.getD true) := by
  cases s <;> cases g <;> rfl

lemma mem_insertAll (x : String) (l : List String) (init : Finset String) :
    x ∈ insertAll init l ↔ x ∈ l ∨ x ∈ init := by
  induction l generalizing init with
  | nil => simp [insertAll]
  | cons a as ih =>
    simp only [insertAll, List.foldl_cons, List.mem_cons]
    rw [show (as.foldl (fun s e => insert e s) (insert a init)) =
        insertAll (insert a init) as from rfl, ih]
    simp [Finset.mem_insert]
    tauto

lemma mem_resolveExcludes (x : String) (a b : List String) :
    x ∈ resolveExcludes a b ↔ x ∈ a ∨ x ∈ b := by
  simp [resolveExcludes, mem_insertAll]
  tauto

/-! ## File selection walker (src/main.rs lines 259-262 and 320-329)

The ignore crate is external, so the policy-driven traversal is
abstracted as an arbitrary tree of entries: whatever the seven toggles
let the walker consider.  The compiled glob set of the globset crate is
abstracted as an opaque matching function on full path strings.  The
exclude filter of src/main.rs lines 259-262 rejects an entry when its
full path string matches the glob set; filter_entry prunes the subtree
of a rejected directory. -/

/-- A file-system subtree as seen by the traversal: a full path string
and the child subtrees (empty for plain files). -/
inductive FsTree : Type where
  | node : String → List FsTree → FsTree

/-- The string-level exclude filter of src/main.rs lines 259-262: keep
an entry exactly when its full path does not match the glob set. -/
def exclude_filter_str (isMatch : String → Bool) (path : String) : Bool :=
  !isMatch path

/-- Traversal with an entry filter: an accepted entry is yielded and its
children visited; a rejected entry is skipped with its whole subtree, as
filter_entry does. -/
def walkTrees (pred : String → Bool) : List FsTree → List String
  | [] => []
  | FsTree.node p cs :: rest =>
    if pred p then p :: (walkTrees pred cs ++ walkTrees pred rest)
    else walkTrees pred rest

/-- The walk of one sync entry (src/main.rs lines 320-329): the tree
rooted at the source, post-filtered by the exclude filter. -/
def fileSelectionWalker (isMatch : String → Bool) (root : FsTree) : List String :=
  walkTrees (exclude_filter_str isMatch) [root]

lemma mem_walkTrees_not_isMatch (isMatch : String → Bool) :
    ∀ (ts : List FsTree) (p : String),
      p ∈ walkTrees (exclude_filter_str isMatch) ts → isMatch p = false
  | [], p, hp => by simp [walkTrees] at hp
  | FsTree.node q cs :: rest, p, hp => by
    by_cases hq : exclude_filter_str isMatch q = true
    · rw [walkTrees, if_pos hq] at hp
      rcases List.mem_cons.mp hp with hpq | hp2
      · subst hpq
        simpa [exclude_filter_str] using hq
      · rcases List.mem_append.mp hp2 with hcs | hrest
        · exact mem_walkTrees_not_isMatch isMatch cs p hcs
        · exact mem_walkTrees_not_isMatch isMatch rest p hrest
    · rw [walkTrees, if_neg hq] at hp
      exact mem_walkTrees_not_isMatch isMatch rest p hp

/-! ## Sync dispatcher (src/main.rs lines 330-378) -/

/-- One constructed external command: the program path and its argument
list, as assembled in src/main.rs lines 331-341. -/
structure RsyncCmd where
  program : String
  args : List String
deriving DecidableEq, Repr

/-- Command construction for one discovered file (src/main.rs lines
335-341): fixed archive, verbose and compress flags, the optional rsync
dry-run flag, then the source path and the destination string. -/
def buildCmd (rsync : String) (rsyncDryRun : Bool) (source dest : String) : RsyncCmd :=
  { program := rsync
  , args := (["--archive", "--verbose", "--compress"] ++
      (if rsyncDryRun then ["--dry-run"] else [])) ++ [source, dest] }

/-- Observable outcome of the per-file loop of one sync entry: every
command constructed, the commands printed in program dry-run mode, and
the commands actually spawned as child processes. -/
structure DispatchResult where
  constructed : List RsyncCmd
  printed : List RsyncCmd
  spawned : List RsyncCmd
deriving DecidableEq, Repr

/-- The per-file loop of src/main.rs lines 330-378: one command is built
for every file the walker yielded; in program dry-run mode it is printed,
otherwise it is spawned. -/
def dispatchLoop (rsync : String) (dryRun rsyncDryRun : Bool) (dest : String) :
    List String → DispatchResult
  | [] => { constructed := [], printed := [], spawned := [] }
  | f :: fs =>
    let cmd := buildCmd rsync rsyncDryRun f dest
    let rest := dispatchLoop rsync dryRun rsyncDryRun dest fs
    if dryRun then
      { constructed := cmd :: rest.constructed
      , printed := cmd :: rest.printed
      , spawned := rest.spawned }
    else
      { constructed := cmd :: rest.constructed
      , printed := rest.printed
      , spawned := cmd :: rest.spawned }

lemma dispatchLoop_spec (rsync : String) (dryRun rsyncDryRun : Bool) (dest : String)
    (files : List String) :
    (dispatchLoop rsync dryRun rsyncDryRun dest files).constructed =
      files.map (fun f => buildCmd rsync rsyncDryRun f dest) ∧
    (dispatchLoop rsync dryRun rsyncDryRun dest files).printed =
      (if dryRun then files.map (fun f => buildCmd rsync rsyncDryRun f dest) else []) ∧
    (dispatchLoop rsync dryRun rsyncDryRun dest files).spawned =
      (if dryRun then [] else files.map (fun f => buildCmd rsync rsyncDryRun f dest)) := by
  induction files with
  | nil => cases dryRun <;> simp [dispatchLoop]
  | cons f fs ih =>
    obtain ⟨h1, h2, h3⟩ := ih
    cases dryRun <;> simp_all [dispatchLoop]

/-! ## Exit-status handling (src/main.rs lines 371-377) -/

/-- The exit status of a finished child process: either an exit code, or
no code (the process was terminated by a signal). -/
inductive ChildStatus : Type where
  | code : Int → ChildStatus
  | noCode : ChildStatus
deriving DecidableEq, Repr

/-- Mirror of ExitStatus.code() in the standard library contract used at
src/main.rs line 374. -/
def ChildStatus.codeOf : ChildStatus → Option Int
  | .code c => some c
  | .noCode => none

/-- Outcome of one status check: either the run continues, with the line
reporting the code to the user, or the whole run aborts fatally. -/
inductive StatusOutcome : Type where
  | continueRun : String → StatusOutcome
  | fatal : String → StatusOutcome
deriving DecidableEq, Repr

/-- The status handling of src/main.rs lines 371-377: a failed oneshot
receive or a status without a code aborts the run via bail; otherwise
the code is printed and the loop goes on to the next file. -/
def handleStatus (received : Option ChildStatus) : StatusOutcome :=
  match received with
  | none => .fatal "Unable to get status code from child process (rsync)"
  | some status =>
    match status.codeOf with
    | none => .fatal "Unable to get status code from child process (rsync)"
    | some c => .continueRun ("rsync exited with code " ++ toString c)

/-! ## Variable environment and path expressions

The varpath crate used at src/main.rs lines 27-29, 96-98 and 218-234 is
part of this project but its source is not under src/; it is modelled
from the spec here. -/

/-- Modelled from the spec: one piece of a path expression of the
varpath crate, either literal text or a variable reference such as
HOME in the expression dollar-brace HOME close-brace. -/
inductive PathToken : Type where
  | lit : String → PathToken
  | var : String → PathToken
deriving DecidableEq, Repr

/-- Modelled from the spec: a path expression is a sequence of literal
pieces and variable references. -/
abbrev VarPathM : Type := List PathToken

/-- Modelled from the spec: the error kind raised by evaluation when a
referenced name has no value in any layer. -/
inductive EvalError : Type where
  | undefinedVariable : String → EvalError
deriving DecidableEq, Repr

/-- Modelled from the spec: the environment built at src/main.rs lines
218-222 layers the process environment below the explicitly injected
values, with explicit values taking precedence over same-named process
variables. -/
def buildEnv (processEnv explicitVals : String → Option String) :
    String → Option String :=
  fun n =>
    match explicitVals n with
    | some v => some v
    | none => processEnv n

/-- Modelled from the spec: evaluation substitutes every variable
reference with its resolved value and fails with the undefined-variable
error when a referenced name has no value; pure string substitution,
never an empty-string fallback. -/
def evalVarPath (env : String → Option String) : VarPathM → Except EvalError String
  | [] => .ok ""
  | PathToken.lit s :: ts =>
    match evalVarPath env ts with
    | .error e => .error e
    | .ok rest => .ok (s ++ rest)
  | PathToken.var n :: ts =>
    match env n with
    | none => .error (.undefinedVariable n)
    | some v =>
      match evalVarPath env ts with
      | .error e => .error e
      | .ok rest => .ok (v ++ rest)

lemma evalVarPath_undefined (env : String → Option String) :
    ∀ (p : VarPathM) (n : String), PathToken.var n ∈ p → env n = none →
      ∃ m, evalVarPath env p = .error (EvalError.undefinedVariable m) ∧ env m = none
  | [], n, hmem, _ => by simp at hmem
  | PathToken.lit s :: ts, n, hmem, hnone => by
    have hts : PathToken.var n ∈ ts := by
      rcases List.mem_cons.mp hmem with h | h
      · exact absurd h (by simp)
      · exact h
    obtain ⟨m, hm, hmnone⟩ := evalVarPath_undefined env ts n hts hnone
    exact ⟨m, by simp [evalVarPath, hm], hmnone⟩
  | PathToken.var k :: ts, n, hmem, hnone => by
    cases hk : env k with
    | none => exact ⟨k, by simp [evalVarPath, hk], hk⟩
    | some v =>
      have hts : PathToken.var n ∈ ts := by
        rcases List.mem_cons.mp hmem with h | h
        · cases h
          exact absurd hk (by simp [hnone])
        · exact h
      obtain ⟨m, hm, hmnone⟩ := evalVarPath_undefined env ts n hts hnone
      exact ⟨m, by simp [evalVarPath, hk, hm], hmnone⟩

/-! ## Destination construction (src/main.rs lines 204-229) -/

/-- The remote prefix of src/main.rs lines 206-210: user at host. -/
def mkRemote (user host : String) : String := user ++ "@" ++ host

/-- The destination string of src/main.rs lines 225-229: the remote
prefix, a colon, the evaluated destination directory, then one appended
separator telling rsync to put contents inside the directory. -/
def mkDestination (remote destDir : String) : String :=
  remote ++ ":" ++ destDir ++ "/"

/-- Number of consecutive path separators at the front of a character
list. -/
def countLeadingSep : List Char → Nat
  | [] => 0
  | c :: cs => if c = '/' then countLeadingSep cs + 1 else 0

/-- Number of consecutive path separators at the end of a string. -/
def trailingSepCount (s : String) : Nat := countLeadingSep s.data.reverse

lemma countLeadingSep_append_colon (l1 l2 : List Char)
    (h : countLeadingSep l1 = 0) :
    countLeadingSep (l1 ++ ':' :: l2) = 0 := by
  cases l1 with
  | nil => simp [countLeadingSep]
  | cons c cs =>
    by_cases hc : c = '/'
    · rw [countLeadingSep, if_pos hc] at h
      exact absurd h (Nat.succ_ne_zero _)
    · simp [countLeadingSep, hc]

/-! ## Log-level resolution (src/main.rs lines 156-185) -/

/-- The five levels of the tracing crate. -/
inductive LogLevel : Type where
  | trace | debug | info | warn | error
deriving DecidableEq, Repr

/-- ASCII lower-casing of one character, used to model the
case-insensitive level-name comparison of the tracing crate. -/
def asciiLower (c : Char) : Char :=
  if 'A' ≤ c ∧ c ≤ 'Z' then Char.ofNat (c.toNat + 32) else c

/-- ASCII lower-casing of a string. -/
def lowerAscii (s : String) : String := ⟨s.data.map asciiLower⟩

/-- Mirror of tracing Level from_str: the level names case-insensitively,
or the digits 1 through 5. -/
def levelFromStr (s : String) : Except String LogLevel :=
  let l := lowerAscii s
  if l = "trace" ∨ l = "1" then .ok .trace
  else if l = "debug" ∨ l = "2" then .ok .debug
  else if l = "info" ∨ l = "3" then .ok .info
  else if l = "warn" ∨ l = "4" then .ok .warn
  else if l = "error" ∨ l = "5" then .ok .error
  else .error "error parsing level"

/-- The documented default level constant of src/main.rs line 33. -/
def DEFAULT_LOG_LEVEL : String := "INFO"

/-- Mirror of the Rust struct GeneralSettings (src/main.rs lines
100-119); the serde defaults for the non-optional fields are applied at
deserialization. -/
structure GeneralSettings where
  log_level : Option String
  exclude : List String
  relative_to : VarPathM
  timezone : String
  timestamp_fmt : String
  ignore_settings : IgnoreSettings
deriving DecidableEq, Repr

/-- Mirror of default_relative_to (src/main.rs lines 96-98): the
expression referencing HOME. -/
def default_relative_to : VarPathM := [PathToken.var "HOME"]

/-- Mirror of impl Default for GeneralSettings (src/main.rs lines
120-131): the log level defaults to the INFO constant. -/
def GeneralSettings.defaultSettings : GeneralSettings :=
  { log_level := some DEFAULT_LOG_LEVEL
  , exclude := []
  , timezone := "UTC"
  , timestamp_fmt := "%Y-%m-%d_%T"
  , ignore_settings := IgnoreSettings.defaultSettings
  , relative_to := default_relative_to }

/-- The log-level resolution of src/main.rs lines 158 and 176-185: the
CLI flag wins; otherwise the raw optional general section of the config
is consulted directly (not the defaulted GeneralSettings), and a missing
section or missing key falls back to the hard-coded DEBUG default of
line 158. -/
def resolveLogLevel (cliLevel : Option LogLevel)
    (generalSection : Option GeneralSettings) : Except String LogLevel :=
  match cliLevel with
  | some level => .ok level
  | none =>
    match generalSection with
    | some general =>
      match general.log_level with
      | some s => levelFromStr s
      | none => .ok .debug
    | none => .ok .debug

/-! ## UTF-8 assumptions (src/main.rs lines 201-202, 259-262, 335-341)

OsStr values from the operating system need not be valid UTF-8; to_str
yields None in that case.  A Rust unwrap on None is a panic, outside the
error-chain Result mechanism; both outcomes are made observable here. -/

/-- An operating-system string: either valid UTF-8 with its text, or a
non-UTF-8 byte sequence. -/
inductive OsStrM : Type where
  | utf8 : String → OsStrM
  | nonUtf8 : List UInt8 → OsStrM
deriving DecidableEq, Repr

/-- Mirror of OsStr to_str: Some exactly for valid UTF-8. -/
def OsStrM.to_str : OsStrM → Option String
  | .utf8 s => some s
  | .nonUtf8 _ => none

/-- Outcome of a Rust expression that may panic: a panic aborts the
thread and never goes through the Result error chain. -/
inductive PanicOr (α : Type) : Type where
  | panicked : PanicOr α
  | value : α → PanicOr α
deriving DecidableEq, Repr

/-- Mirror of Option unwrap: the value, or a panic on None. -/
def optionUnwrap {α : Type} : Option α → PanicOr α
  | some a => .value a
  | none => .panicked

/-- The exclude filter exactly as in src/main.rs lines 259-262: the
entry path is converted with to_str and unwrapped before glob matching,
so a non-UTF-8 path panics. -/
def exclude_filter (isMatch : String → Bool) (entryPath : OsStrM) : PanicOr Bool :=
  match optionUnwrap entryPath.to_str with
  | .panicked => .panicked
  | .value path => .value (exclude_filter_str isMatch path)

/-- The source-path argument push of src/main.rs line 339: the yielded
path is unwrapped from to_str before being handed to the command. -/
def sourceArg (entryPath : OsStrM) : PanicOr String :=
  match optionUnwrap entryPath.to_str with
  | .panicked => .panicked
  | .value path => .value path

/-- The hostname conversion of src/main.rs lines 201-202: the OS
hostname is unwrapped from to_str. -/
def hostnameStr (rawHostname : OsStrM) : PanicOr String :=
  match optionUnwrap rawHostname.to_str with
  | .panicked => .panicked
  | .value h => .value h

/-! ## Theorems for claims C1 and C2 -/

/-- Claim C1: for every sync entry and each of the seven toggles, the
resolved value is the sync-entry value if set, else the general-settings
value if set, else true; each toggle of the result is a function of that
toggle alone at the two layers, so resolution is independent per
toggle. -/
theorem c1_toggle_resolution (sync gen : IgnoreSettings) :
    (resolvePolicy sync gen).hidden = sync.hidden.getD (gen.hidden.getD true) ∧
    (resolvePolicy sync gen).parents = sync.parents.getD (gen.parents.getD true) ∧
    (resolvePolicy sync gen).ignore = sync.ignore.getD (gen.ignore.getD true) ∧
    (resolvePolicy sync gen).git_ignore = sync.git_ignore.getD (gen.git_ignore.getD true) ∧
    (resolvePolicy sync gen).git_global = sync.git_global.getD (gen.git_global.getD true) ∧
    (resolvePolicy sync gen).git_exclude = sync.git_exclude.getD (gen.git_exclude.getD true) ∧
    (resolvePolicy sync gen).same_file_system =
      sync.same_file_system.getD (gen.same_file_system.getD true) := by
  refine ⟨?_, ?_, ?_, ?_, ?_, ?_, ?_⟩ <;>
    simp [resolvePolicy, resolveToggle_eq_getD]

/-- Claim C2: the effective exclude set is the deduplicated union of the
entry patterns and the general patterns; the union is idempotent and
order-independent under set equality. -/
theorem c2_exclude_union (a b : List String) :
    (∀ x, x ∈ resolveExcludes a b ↔ x ∈ a ∨ x ∈ b) ∧
    resolveExcludes a b = resolveExcludes b a ∧
    resolveExcludes a a = insertAll ∅ a := by
  refine ⟨fun x => mem_resolveExcludes x a b, ?_, ?_⟩
  · apply Finset.ext
    intro x
    rw [mem_resolveExcludes, mem_resolveExcludes]
    tauto
  · apply Finset.ext
    intro x
    rw [mem_resolveExcludes, mem_insertAll]
    simp

/-- Claim C3: for every source tree, every policy-driven traversal and
every compiled exclude set, the walker never yields an entry whose full
path string matches the exclude set: the post-filter of src/main.rs
lines 259-262 and 328 rejects every matching entry. -/
theorem c3_walker_never_yields_excluded (isMatch : String → Bool) (root : FsTree)
    (p : String) (hp : p ∈ fileSelectionWalker isMatch root) : isMatch p = false :=
  mem_walkTrees_not_isMatch isMatch [root] p hp

/-- Witness for C3 at a concrete tree and glob function: the kept file
is yielded and does not match, while the matching sibling is dropped. -/
theorem c3_walker_never_yields_excluded_witness :
    ("/s/a" ∈ fileSelectionWalker (fun p => p == "/s/b")
      (FsTree.node "/s" [FsTree.node "/s/a" [], FsTree.node "/s/b" []])) ∧
    (fun p => p == "/s/b") "/s/a" = false :=
  ⟨by simp [fileSelectionWalker, walkTrees, exclude_filter_str],
   c3_walker_never_yields_excluded (fun p => p == "/s/b")
     (FsTree.node "/s" [FsTree.node "/s/a" [], FsTree.node "/s/b" []]) "/s/a"
     (by simp [fileSelectionWalker, walkTrees, exclude_filter_str])⟩

/-- Claim C4: the dispatcher constructs exactly one rsync command per
file yielded by the walker, and outside program dry-run mode spawns
exactly those commands, one per file. -/
theorem c4_one_command_per_file (rsync : String) (dryRun rsyncDryRun : Bool)
    (dest : String) (files : List String) :
    (dispatchLoop rsync dryRun rsyncDryRun dest files).constructed =
      files.map (fun f => buildCmd rsync rsyncDryRun f dest) ∧
    (dispatchLoop rsync dryRun rsyncDryRun dest files).constructed.length =
      files.length ∧
    (dispatchLoop rsync dryRun rsyncDryRun dest files).spawned =
      (if dryRun then []
       else files.map (fun f => buildCmd rsync rsyncDryRun f dest)) := by
  obtain ⟨h1, h2, h3⟩ := dispatchLoop_spec rsync dryRun rsyncDryRun dest files
  exact ⟨h1, by rw [h1, List.length_map], h3⟩

/-- Claim C5: with the program dry-run flag set, no external process is
spawned for any discovered file; every constructed command is printed
instead. -/
theorem c5_dry_run_prints_never_spawns (rsync : String) (rsyncDryRun : Bool)
    (dest : String) (files : List String) :
    (dispatchLoop rsync true rsyncDryRun dest files).spawned = [] ∧
    (dispatchLoop rsync true rsyncDryRun dest files).printed =
      files.map (fun f => buildCmd rsync rsyncDryRun f dest) := by
  obtain ⟨h1, h2, h3⟩ := dispatchLoop_spec rsync true rsyncDryRun dest files
  exact ⟨by simpa using h3, by simpa using h2⟩

/-- Claim C6: a child exit status carrying a code (for example 23) is
reported to the user and the run continues; a failed status handoff or a
status without a code is fatal for the whole run. -/
theorem c6_exit_status_handling (c : Int) :
    handleStatus (some (ChildStatus.code c)) =
      StatusOutcome.continueRun ("rsync exited with code " ++ toString c) ∧
    handleStatus (some (ChildStatus.code 23)) =
      StatusOutcome.continueRun "rsync exited with code 23" ∧
    handleStatus (some ChildStatus.noCode) =
      StatusOutcome.fatal "Unable to get status code from child process (rsync)" ∧
    handleStatus none =
      StatusOutcome.fatal "Unable to get status code from child process (rsync)" :=
  ⟨rfl, rfl, rfl, rfl⟩

/-- Claim C7: evaluating a path expression that references a name with
no value in any layer of the environment fails with the
undefined-variable error kind, aborting the run; no empty-string
substitution happens. -/
theorem c7_undefined_variable_fails (processEnv explicitVals : String → Option String)
    (p : VarPathM) (n : String) (hmem : PathToken.var n ∈ p)
    (hexp : explicitVals n = none) (hproc : processEnv n = none) :
    ∃ m, evalVarPath (buildEnv processEnv explicitVals) p =
        .error (EvalError.undefinedVariable m) ∧
      buildEnv processEnv explicitVals m = none := by
  apply evalVarPath_undefined _ p n hmem
  simp [buildEnv, hexp, hproc]

/-- Witness for C7 at a concrete expression and an empty environment. -/
theorem c7_undefined_variable_fails_witness :
    (PathToken.var "HOST" ∈ ([PathToken.lit "/backup/", PathToken.var "HOST"] : VarPathM)) ∧
    ((fun _ : String => (none : Option String)) "HOST" = none) ∧
    ∃ m, evalVarPath (buildEnv (fun _ => none) (fun _ => none))
        [PathToken.lit "/backup/", PathToken.var "HOST"] =
        .error (EvalError.undefinedVariable m) ∧
      buildEnv (fun _ : String => (none : Option String))
        (fun _ : String => (none : Option String)) m = none :=
  ⟨by simp, rfl,
   c7_undefined_variable_fails (fun _ => none) (fun _ => none)
     [PathToken.lit "/backup/", PathToken.var "HOST"] "HOST" (by simp) rfl rfl⟩

lemma string_data_append (a b : String) : (a ++ b).data = a.data ++ b.data := rfl

lemma data_reverse_mkDestination (r d : String) :
    (mkDestination r d).data.reverse =
      '/' :: (d.data.reverse ++ ':' :: r.data.reverse) := by
  simp [mkDestination, string_data_append]

/-- Claim C8: the destination string handed to rsync is exactly the
remote prefix user at host, a colon, the evaluated destination path,
followed by exactly one appended trailing separator — it always ends in
a separator and never equals the bare form without one; when the
evaluated path itself carries no trailing separator the whole string has
exactly one. -/
theorem c8_destination_trailing_separator (user host destDir : String) :
    mkDestination (mkRemote user host) destDir =
      user ++ "@" ++ host ++ ":" ++ destDir ++ "/" ∧
    mkDestination (mkRemote user host) destDir ≠
      mkRemote user host ++ ":" ++ destDir ∧
    1 ≤ trailingSepCount (mkDestination (mkRemote user host) destDir) ∧
    (trailingSepCount destDir = 0 →
      trailingSepCount (mkDestination (mkRemote user host) destDir) = 1) := by
  refine ⟨rfl, ?_, ?_, ?_⟩
  · intro h
    have hlen := congrArg (fun s => s.data.length) h
    simp [mkDestination, string_data_append] at hlen
  · rw [trailingSepCount, data_reverse_mkDestination, countLeadingSep]
    simp
  · intro h0
    rw [trailingSepCount, data_reverse_mkDestination, countLeadingSep]
    rw [countLeadingSep_append_colon _ _ h0]
    simp

/-- Witness for C8 at a concrete remote and destination path. -/
theorem c8_destination_trailing_separator_witness :
    trailingSepCount "backups" = 0 ∧
    (mkDestination (mkRemote "user" "10.0.0.2") "backups" =
        "user" ++ "@" ++ "10.0.0.2" ++ ":" ++ "backups" ++ "/" ∧
      mkDestination (mkRemote "user" "10.0.0.2") "backups" ≠
        mkRemote "user" "10.0.0.2" ++ ":" ++ "backups" ∧
      1 ≤ trailingSepCount (mkDestination (mkRemote "user" "10.0.0.2") "backups") ∧
      (trailingSepCount "backups" = 0 →
        trailingSepCount (mkDestination (mkRemote "user" "10.0.0.2") "backups") = 1)) :=
  ⟨by decide, c8_destination_trailing_separator "user" "10.0.0.2" "backups"⟩

/-- Claim C9: with no general section in the config and no CLI level
flag, the resolved log level is DEBUG, because resolution reads the raw
optional section rather than the defaulted GeneralSettings whose
log_level is the INFO constant; on that defaulted value resolution would
give INFO instead. -/
theorem c9_missing_general_gives_debug :
    resolveLogLevel none none = .ok LogLevel.debug ∧
    GeneralSettings.defaultSettings.log_level = some DEFAULT_LOG_LEVEL ∧
    DEFAULT_LOG_LEVEL = "INFO" ∧
    levelFromStr DEFAULT_LOG_LEVEL = .ok LogLevel.info ∧
    resolveLogLevel none (some GeneralSettings.defaultSettings) = .ok LogLevel.info ∧
    LogLevel.debug ≠ LogLevel.info :=
  ⟨rfl, rfl, rfl, rfl, rfl, by decide⟩

/-- Claim C10: a non-UTF-8 entry path panics in the exclude filter and
in the source-argument conversion, and a non-UTF-8 hostname panics in
the hostname conversion — the outcome is a panic, not an error-chain
value; valid UTF-8 inputs proceed normally. -/
theorem c10_non_utf8_panics (isMatch : String → Bool) (bs : List UInt8) (s : String) :
    exclude_filter isMatch (OsStrM.nonUtf8 bs) = PanicOr.panicked ∧
    sourceArg (OsStrM.nonUtf8 bs) = PanicOr.panicked ∧
    hostnameStr (OsStrM.nonUtf8 bs) = PanicOr.panicked ∧
    exclude_filter isMatch (OsStrM.utf8 s) =
      PanicOr.value (exclude_filter_str isMatch s) ∧
    sourceArg (OsStrM.utf8 s) = PanicOr.value s ∧
    hostnameStr (OsStrM.utf8 s) = PanicOr.value s :=
  ⟨rfl, rfl, rfl, rfl, rfl, rfl⟩

end SystemBackup
